import Mathlib

/-!
Formal model of the derived-metrics and classification engine of the
gestionale-materiali repository (src/app/models/model_nuovo.py,
src/app/models/models.py, src/app/main.py, src/app/routes/api_routes.py).

Conventions of the shallow embedding:
* money amounts (`costo_acquisto`, `prezzo_vendita`, ...) are rationals (`ℚ`);
* calendar dates and datetimes are day numbers (`Int`, days since 1970-01-01);
  Python's `date_a - date_b` (a `timedelta` in days) becomes integer subtraction;
* `date.today()` / `datetime.now()` is an explicit `today : Int` argument;
* SQLAlchemy relationship collections are Lean lists, in database order;
* nullable columns are `Option` values.
-/

namespace Gestionale

/-- A `vendite` row (class `Vendita` of src/app/models/model_nuovo.py). -/
structure Vendita where
  dataVendita : Int
  canaleVendita : String
  prezzoVendita : ℚ
  commissioni : ℚ
  syncedFromInvoicex : Bool
  invoicexId : Option String
  deriving Repr, DecidableEq

/-- A `prodotti` row (class `Prodotto`), with its related sales. -/
structure Prodotto where
  seriale : Option String
  descrizione : String
  vendite : List Vendita
  deriving Repr, DecidableEq

/-- An `acquisti` row (class `Acquisto`), with its related items. -/
structure Acquisto where
  idAcquistoUnivoco : String
  costoAcquisto : ℚ
  costiAccessori : ℚ
  dataPagamento : Option Int
  dataConsegna : Option Int
  createdAt : Int
  problemaTipo : Option String
  problemaSegnalato : Bool
  prodotti : List Prodotto
  deriving Repr, DecidableEq

/-- `Vendita.ricavo_netto`: `prezzo_vendita - commissioni`
(model_nuovo.py lines 316-319, models.py lines 96-98). -/
def Vendita.ricavoNetto (v : Vendita) : ℚ :=
  v.prezzoVendita - v.commissioni

/-- `Prodotto.venduto`: true iff the item has at least one sale
(model_nuovo.py lines 245-248, models.py lines 68-70). -/
def Prodotto.venduto (p : Prodotto) : Bool :=
  !p.vendite.isEmpty

/-- `Prodotto.ricavo_vendita`: total net revenue over the item's sales
(model_nuovo.py lines 250-253). -/
def Prodotto.ricavoVendita (p : Prodotto) : ℚ :=
  (p.vendite.map Vendita.ricavoNetto).sum

/-- An item is a service-use ("fotorip") item iff it has at least one sale on
the reserved channel `"RIPARAZIONI"` (the test
`any(v.canale_vendita == "RIPARAZIONI" for v in p.vendite)` used throughout
src/app/main.py, e.g. lines 276-277, 880-881, 996-997). -/
def Prodotto.fotorip (p : Prodotto) : Bool :=
  p.vendite.any fun v => v.canaleVendita == "RIPARAZIONI"

/-- `Acquisto.numero_prodotti` (model_nuovo.py lines 35-38). -/
def Acquisto.numeroProdotti (a : Acquisto) : Nat :=
  a.prodotti.length

/-- `Acquisto.costo_totale = costo_acquisto + costi_accessori`
(model_nuovo.py lines 57-60, models.py lines 26-28). -/
def Acquisto.costoTotale (a : Acquisto) : ℚ :=
  a.costoAcquisto + a.costiAccessori

/-- `Acquisto.prodotti_venduti`: number of sold items (model_nuovo.py lines 40-43). -/
def Acquisto.prodottiVenduti (a : Acquisto) : Nat :=
  (a.prodotti.filter Prodotto.venduto).length

/-- Python's `str.strip()`: drop whitespace from both ends of the string. -/
def stripString (s : String) : String :=
  ⟨((s.data.dropWhile Char.isWhitespace).reverse.dropWhile Char.isWhitespace).reverse⟩

/-- A serial value counted as missing by `Acquisto.prodotti_senza_seriali`:
`not p.seriale or p.seriale.strip() in ['', '???', 'N/A']`
(model_nuovo.py lines 45-48). -/
def serialePlaceholder : Option String → Bool
  | none => true
  | some s =>
    stripString s == "" || stripString s == "???" || stripString s == "N/A"

/-- The complement of `serialePlaceholder`: the spec's `serial_is_real`. -/
def serialeReale (s : Option String) : Bool :=
  !serialePlaceholder s

/-- `Acquisto.prodotti_senza_seriali` (model_nuovo.py lines 45-48). -/
def Acquisto.prodottiSenzaSeriali (a : Acquisto) : Nat :=
  (a.prodotti.filter fun p => serialePlaceholder p.seriale).length

/-- `Acquisto.completamente_venduto`: false on an empty batch, else all items sold
(model_nuovo.py lines 50-55, models.py lines 42-44). -/
def Acquisto.completamenteVenduto (a : Acquisto) : Bool :=
  !a.prodotti.isEmpty && a.prodotti.all Prodotto.venduto

/-- `Acquisto.ricavo_totale`: net revenue summed over sold items, all channels
(model_nuovo.py lines 62-65, models.py lines 46-48). -/
def Acquisto.ricavoTotale (a : Acquisto) : ℚ :=
  ((a.prodotti.filter Prodotto.venduto).map Prodotto.ricavoVendita).sum

/-- `Acquisto.margine_totale = ricavo_totale - costo_totale`
(model_nuovo.py lines 67-70, models.py lines 50-52). -/
def Acquisto.margineTotale (a : Acquisto) : ℚ :=
  a.ricavoTotale - a.costoTotale

/-- `Acquisto.giorni_attesa`: none once delivered, else days since payment date,
falling back to the creation date (model_nuovo.py lines 79-90). -/
def Acquisto.giorniAttesa (a : Acquisto) (today : Int) : Option Int :=
  match a.dataConsegna with
  | some _ => none
  | none => some (today - (a.dataPagamento.getD a.createdAt))

/-- `Acquisto.giorni_stock`: days since delivery, none if not arrived
(model_nuovo.py lines 92-97). -/
def Acquisto.giorniStock (a : Acquisto) (today : Int) : Option Int :=
  a.dataConsegna.map fun d => today - d

/-- `Prodotto.costo_unitario` without its owning purchase: the source returns 0
when `self.acquisto` is `None` or the batch is empty, else
`costo_totale / numero_prodotti` (model_nuovo.py lines 262-267). -/
def costoUnitarioProdotto : Option Acquisto → ℚ
  | none => 0
  | some a => if a.prodotti.length = 0 then 0 else a.costoTotale / (a.prodotti.length : ℚ)

/-- `Prodotto.margine_vendita` of an item of purchase `a`:
`ricavo_vendita - costo_unitario` (model_nuovo.py lines 269-272). -/
def margineProdotto (a : Acquisto) (p : Prodotto) : ℚ :=
  p.ricavoVendita - costoUnitarioProdotto (some a)

/-- The business (non service-use) subset of the items of a purchase:
`[p for p in acquisto.prodotti if not any(v.canale_vendita == "RIPARAZIONI" for v in p.vendite)]`
(src/app/main.py lines 276-277, 880-881, 996-997). -/
def prodottiBusiness (a : Acquisto) : List Prodotto :=
  a.prodotti.filter fun p => !p.fotorip

/-- Business net revenue of a purchase:
`sum(sum(v.ricavo_netto for v in p.vendite if v.canale_vendita != "RIPARAZIONI") for p in prodotti_business if p.vendite)`
(src/app/main.py lines 286-289, 891-894, 1027-1030). -/
def ricaviBusiness (a : Acquisto) : ℚ :=
  (((prodottiBusiness a).filter fun p => !p.vendite.isEmpty).map fun p =>
    ((p.vendite.filter fun v => v.canaleVendita != "RIPARAZIONI").map Vendita.ricavoNetto).sum).sum

/-- Business share of the batch cost:
`costo_per_prodotto = costo_totale / len(prodotti)` then
`costo_per_prodotto * len(prodotti_business)`
(src/app/main.py lines 292-293, 897-898, 1024-1025). -/
def investimentoBusiness (a : Acquisto) : ℚ :=
  a.costoTotale / (a.prodotti.length : ℚ) * ((prodottiBusiness a).length : ℚ)

/-- Aggregate business margin percentage of a purchase, 0 when the business
investment is not positive (src/app/main.py lines 295-296, 899-900). -/
def margineBusinessPerc (a : Acquisto) : ℚ :=
  if investimentoBusiness a > 0 then
    (ricaviBusiness a - investimentoBusiness a) / investimentoBusiness a * 100
  else 0

/-- The slow-sale term of `Acquisto.urgenza_score`
(model_nuovo.py lines 221-225): applied when `giorni_stock` is truthy (not
`None` and nonzero), over 30, the batch is not fully sold and at least one
item has no sales; Python's `//` on the nonnegative `giorni_stock - 30` is
integer floor division. -/
def Acquisto.penalitaVenditeLente (a : Acquisto) (today : Int) : Int :=
  match a.giorniStock today with
  | none => 0
  | some gs =>
    if gs ≠ 0 ∧ gs > 30 ∧ ¬a.completamenteVenduto then
      if 0 < (a.prodotti.filter fun p => p.vendite.isEmpty).length then
        min 30 ((gs - 30) / 15 * 10)
      else 0
    else 0

/-- The flagged-problem term of `Acquisto.urgenza_score`
(model_nuovo.py lines 195-205): base 50 plus a severity bonus by category. -/
def Acquisto.urgenzaProblemaSegnalato (a : Acquisto) : Int :=
  if a.problemaSegnalato then
    50 +
      (if a.problemaTipo = some "pacco_perso" ∨ a.problemaTipo = some "prodotti_danneggiati" then
        30
      else if a.problemaTipo = some "prodotti_non_conformi" ∨ a.problemaTipo = some "problema_venditore" then
        20
      else if a.problemaTipo = some "ritardo_consegna" then 15
      else 0)
  else 0

/-- The not-yet-arrived term of `Acquisto.urgenza_score`
(model_nuovo.py lines 207-215), applied only when no problem is flagged. -/
def Acquisto.urgenzaNonArrivato (a : Acquisto) (today : Int) : Int :=
  if a.dataConsegna = none ∧ ¬a.problemaSegnalato then
    let ga := (a.giorniAttesa today).getD 0
    if ga > 21 then 40 else if ga > 14 then 30 else if ga > 7 then 20 else 0
  else 0

/-- The missing-serial term of `Acquisto.urgenza_score`
(model_nuovo.py lines 217-219). -/
def Acquisto.urgenzaSerialiMancanti (a : Acquisto) : Int :=
  if 0 < a.prodottiSenzaSeriali then min 30 ((a.prodottiSenzaSeriali : Int) * 10) else 0

/-- `Acquisto.urgenza_score` (model_nuovo.py lines 190-227): the sum of the
flagged-problem, not-arrived, missing-serial and slow-sale terms, capped at
100 by `min(100, score)`. -/
def Acquisto.urgenzaScore (a : Acquisto) (today : Int) : Int :=
  min 100 (a.urgenzaProblemaSegnalato + a.urgenzaNonArrivato today +
    a.urgenzaSerialiMancanti + a.penalitaVenditeLente today)

end Gestionale

namespace Gestionale

/-- C5: an Item's unit cost is the Purchase's total cost (base plus accessory)
divided by the total number of Items in the batch; unit cost times the batch
size recovers the total cost; an Item of an empty batch has unit cost 0. -/
theorem costoUnitario_spec (a : Acquisto) :
    (a.prodotti ≠ [] →
      costoUnitarioProdotto (some a) = (a.costoAcquisto + a.costiAccessori) / (a.prodotti.length : ℚ) ∧
      costoUnitarioProdotto (some a) * (a.prodotti.length : ℚ) = a.costoTotale) ∧
    (a.prodotti = [] → costoUnitarioProdotto (some a) = 0) := by
  constructor
  · intro h
    have hlen : a.prodotti.length ≠ 0 := by
      exact fun hc => h (List.length_eq_zero.mp hc)
    have hq : (a.prodotti.length : ℚ) ≠ 0 := by
      exact_mod_cast hlen
    constructor
    · simp [costoUnitarioProdotto, hlen, Acquisto.costoTotale]
    · simp only [costoUnitarioProdotto, hlen, if_neg]
      field_simp
  · intro h
    simp [costoUnitarioProdotto, h]

/-- A concrete ordinary sale: 150 gross, no commission, on day 35. -/
def venditaA : Vendita :=
  { dataVendita := 35, canaleVendita := "ebay", prezzoVendita := 150, commissioni := 0,
    syncedFromInvoicex := false, invoicexId := none }

/-- A sold item with a real serial. -/
def prodottoA : Prodotto :=
  { seriale := some "SN-A", descrizione := "Fotocamera A", vendite := [venditaA] }

/-- An unsold item with a real serial. -/
def prodottoB : Prodotto :=
  { seriale := some "SN-B", descrizione := "Fotocamera B", vendite := [] }

/-- A concrete purchase: base cost 200, accessory cost 20, arrived on day 0,
holding `prodottoA` (sold) and `prodottoB` (unsold). -/
def acquistoP1 : Acquisto :=
  { idAcquistoUnivoco := "P1", costoAcquisto := 200, costiAccessori := 20,
    dataPagamento := none, dataConsegna := some 0, createdAt := 0,
    problemaTipo := none, problemaSegnalato := false,
    prodotti := [prodottoA, prodottoB] }

/-- Witness for `costoUnitario_spec`: on the two-item purchase `acquistoP1`
with total cost 220 the unit cost evaluates to 110. -/
theorem costoUnitario_spec_witness :
    acquistoP1.prodotti ≠ [] ∧ costoUnitarioProdotto (some acquistoP1) = 110 :=
  ⟨by decide, by
    have h := ((costoUnitario_spec acquistoP1).1 (by decide)).1
    rw [h]
    norm_num [acquistoP1, prodottoA, prodottoB]⟩

/-- The flagged-problem term of the urgency score is nonnegative. -/
theorem urgenzaProblemaSegnalato_nonneg (a : Acquisto) : 0 ≤ a.urgenzaProblemaSegnalato := by
  simp only [Acquisto.urgenzaProblemaSegnalato]
  split_ifs <;> norm_num

/-- The not-arrived term of the urgency score is nonnegative. -/
theorem urgenzaNonArrivato_nonneg (a : Acquisto) (today : Int) :
    0 ≤ a.urgenzaNonArrivato today := by
  simp only [Acquisto.urgenzaNonArrivato]
  split_ifs <;> norm_num

/-- The missing-serial term of the urgency score is nonnegative. -/
theorem urgenzaSerialiMancanti_nonneg (a : Acquisto) : 0 ≤ a.urgenzaSerialiMancanti := by
  simp only [Acquisto.urgenzaSerialiMancanti]
  split_ifs with h
  · exact le_min (by norm_num) (mul_nonneg (Int.natCast_nonneg _) (by norm_num))
  · exact le_refl 0

/-- The slow-sale term of the urgency score is nonnegative. -/
theorem penalitaVenditeLente_nonneg (a : Acquisto) (today : Int) :
    0 ≤ a.penalitaVenditeLente today := by
  rcases h : a.giorniStock today with _ | gs <;>
    simp only [Acquisto.penalitaVenditeLente, h]
  · exact le_refl 0
  · split_ifs with h1 h2
    · exact le_min (by norm_num)
        (mul_nonneg (Int.ediv_nonneg (by omega) (by norm_num)) (by norm_num))
    · exact le_refl 0
    · exact le_refl 0

/-- An unsold purchase flagged `pacco_perso`, arrived 100 days before the
as-of date used below, its single item carrying a real serial. -/
def acquistoC6 : Acquisto :=
  { idAcquistoUnivoco := "C6", costoAcquisto := 100, costiAccessori := 0,
    dataPagamento := none, dataConsegna := some 0, createdAt := 0,
    problemaTipo := some "pacco_perso", problemaSegnalato := true,
    prodotti := [prodottoB] }

/-- C6 counterexample: `acquistoC6` has a flagged `pacco_perso` problem and no
item without a real serial, yet its urgency score on day 100 is 100, not 80:
the slow-sale penalty (arrived 100 days ago, not fully sold) still applies on
top of the flagged-problem term. -/
theorem urgenzaScore_pacco_perso_counterexample :
    acquistoC6.problemaSegnalato = true ∧ acquistoC6.problemaTipo = some "pacco_perso" ∧
    acquistoC6.prodottiSenzaSeriali = 0 ∧ acquistoC6.urgenzaScore 100 = 100 := by
  decide

/-- C6 amended: a Purchase with a flagged `pacco_perso` problem, zero items
lacking a real serial, and no applicable slow-sale penalty scores exactly
`min(100, 50+30) = 80` (the flagged-problem branch suppresses the not-arrived
term); and for every input state the urgency score lies in [0, 100]. -/
theorem urgenzaScore_amended (a : Acquisto) (today : Int)
    (h1 : a.problemaSegnalato = true) (h2 : a.problemaTipo = some "pacco_perso")
    (h3 : a.prodottiSenzaSeriali = 0) (h4 : a.penalitaVenditeLente today = 0) :
    a.urgenzaScore today = 80 ∧
      ∀ (b : Acquisto) (t : Int), 0 ≤ b.urgenzaScore t ∧ b.urgenzaScore t ≤ 100 := by
  constructor
  · have e1 : a.urgenzaProblemaSegnalato = 80 := by
      simp [Acquisto.urgenzaProblemaSegnalato, h1, h2]
    have e2 : a.urgenzaNonArrivato today = 0 := by
      simp [Acquisto.urgenzaNonArrivato, h1]
    have e3 : a.urgenzaSerialiMancanti = 0 := by
      simp [Acquisto.urgenzaSerialiMancanti, h3]
    simp only [Acquisto.urgenzaScore, e1, e2, e3, h4]
    norm_num
  · intro b t
    constructor
    · exact le_min (by norm_num)
        (add_nonneg
          (add_nonneg
            (add_nonneg (urgenzaProblemaSegnalato_nonneg b) (urgenzaNonArrivato_nonneg b t))
            (urgenzaSerialiMancanti_nonneg b))
          (penalitaVenditeLente_nonneg b t))
    · exact min_le_left _ _

/-- The same flagged purchase before arrival: no slow-sale penalty applies. -/
def acquistoC6NonArrivato : Acquisto :=
  { idAcquistoUnivoco := "C6b", costoAcquisto := 100, costiAccessori := 0,
    dataPagamento := none, dataConsegna := none, createdAt := 0,
    problemaTipo := some "pacco_perso", problemaSegnalato := true,
    prodotti := [prodottoB] }

/-- Witness for `urgenzaScore_amended` at `acquistoC6NonArrivato` on day 10. -/
theorem urgenzaScore_amended_witness : acquistoC6NonArrivato.urgenzaScore 10 = 80 :=
  (urgenzaScore_amended acquistoC6NonArrivato 10 (by decide) (by decide) (by decide)
    (by decide)).1

/-- Performance score of `_calcola_metriche_acquisto` (src/app/main.py lines
379-406): `None` when no item is sold; otherwise base 50; when
`margine_totale > 0`, a tier on the total margin percentage
`margine_totale / costo_totale * 100`; when the batch is fully sold and
`giorni_stock` is truthy (not `None` and nonzero), a sale-speed tier; then
`max(0, min(100, score))`. -/
def Acquisto.performanceScore (a : Acquisto) (today : Int) : Option Int :=
  if 0 < a.prodottiVenduti then
    let score1 : Int := 50
    let score2 : Int :=
      if a.margineTotale > 0 then
        let mp := a.margineTotale / a.costoTotale * 100
        if mp ≥ 25 then score1 + 30
        else if mp ≥ 15 then score1 + 20
        else if mp ≥ 5 then score1 + 10
        else score1 - 10
      else score1
    let score3 : Int :=
      match a.giorniStock today with
      | some gs =>
        if a.completamenteVenduto ∧ gs ≠ 0 then
          if gs ≤ 30 then score2 + 20
          else if gs ≤ 60 then score2 + 10
          else score2 - 10
        else score2
      | none => score2
    some (max 0 (min 100 score3))
  else none

/-- The performance score as claim C2 words it: margin tier computed on the
business subset and applied unconditionally, speed tier whenever the batch is
fully sold and the stock age is known. Stated for comparison with
`Acquisto.performanceScore`; not part of the source. -/
def performanceScoreClaim (a : Acquisto) (today : Int) : Option Int :=
  if 0 < a.prodottiVenduti then
    let mb := margineBusinessPerc a
    let margTier : Int :=
      if mb ≥ 25 then 30 else if mb ≥ 15 then 20 else if mb ≥ 5 then 10 else -10
    let speedTier : Int :=
      match a.giorniStock today with
      | some gs =>
        if a.completamenteVenduto then
          if gs ≤ 30 then 20 else if gs ≤ 60 then 10 else -10
        else 0
      | none => 0
    some (max 0 (min 100 (50 + margTier + speedTier)))
  else none

/-- A purchase of one item, cost 100, arrived on day 0 and sold on day 10 for
90 net on an ordinary channel: total margin is -10. -/
def acquistoC2 : Acquisto :=
  { idAcquistoUnivoco := "C2", costoAcquisto := 100, costiAccessori := 0,
    dataPagamento := none, dataConsegna := some 0, createdAt := 0,
    problemaTipo := none, problemaSegnalato := false,
    prodotti := [{ seriale := some "SN-C2", descrizione := "Fotocamera C2",
                   vendite := [{ dataVendita := 10, canaleVendita := "ebay",
                                 prezzoVendita := 90, commissioni := 0,
                                 syncedFromInvoicex := false, invoicexId := none }] }] }

/-- C2 counterexample: on `acquistoC2` (one sold item, margin -10%) the code
returns 70 on day 10 - the margin branch is skipped entirely because
`margine_totale > 0` is false, so no -10 is applied - while the claimed
formula (base 50, business-subset margin tier -10, speed tier +20) gives 60. -/
theorem performanceScore_counterexample :
    acquistoC2.performanceScore 10 = some 70 ∧ performanceScoreClaim acquistoC2 10 = some 60 := by
  have hmt : acquistoC2.margineTotale = -10 := by
    simp [Acquisto.margineTotale, Acquisto.ricavoTotale, Acquisto.costoTotale,
      Prodotto.ricavoVendita, Prodotto.venduto, Vendita.ricavoNetto, acquistoC2]
    norm_num
  have hrb : ricaviBusiness acquistoC2 = 90 := by
    simp [ricaviBusiness, prodottiBusiness, Prodotto.fotorip, Vendita.ricavoNetto, acquistoC2]
  have hib : investimentoBusiness acquistoC2 = 100 := by
    simp [investimentoBusiness, prodottiBusiness, Prodotto.fotorip, Acquisto.costoTotale,
      acquistoC2]
  have hmb : margineBusinessPerc acquistoC2 = -10 := by
    rw [margineBusinessPerc, hrb, hib]
    norm_num
  have hpv : (0 < acquistoC2.prodottiVenduti) = True := by
    simp [Acquisto.prodottiVenduti, Prodotto.venduto, acquistoC2]
  have hgs : acquistoC2.giorniStock 10 = some 10 := by decide
  have hcv : acquistoC2.completamenteVenduto = true := by decide
  constructor
  · simp only [Acquisto.performanceScore, hmt, hpv, hgs, hcv, if_true]
    norm_num
  · simp only [performanceScoreClaim, hmb, hpv, hgs, hcv, if_true]
    norm_num

/-- C2 amended formula: the margin tier is computed on the total margin
percentage (all channels, service-use sales included) and only applied when
the total margin is positive; the sale-speed tier additionally requires a
nonzero stock age; the rest is as the claim states. -/
def performanceScoreAmended (a : Acquisto) (today : Int) : Option Int :=
  if 0 < a.prodottiVenduti then
    let margTier : Int :=
      if a.margineTotale > 0 then
        if a.margineTotale / a.costoTotale * 100 ≥ 25 then 30
        else if a.margineTotale / a.costoTotale * 100 ≥ 15 then 20
        else if a.margineTotale / a.costoTotale * 100 ≥ 5 then 10
        else -10
      else 0
    let speedTier : Int :=
      match a.giorniStock today with
      | some gs =>
        if a.completamenteVenduto ∧ gs ≠ 0 then
          if gs ≤ 30 then 20 else if gs ≤ 60 then 10 else -10
        else 0
      | none => 0
    some (max 0 (min 100 (50 + margTier + speedTier)))
  else none

/-- C2 amended: for every Purchase with at least one sold item and nonzero
total cost (the code raises a division error when the total cost is zero and
the total margin positive), the performance score equals base 50, plus the
total-margin tier applied only when the total margin is positive, plus the
sale-speed tier when fully sold with known nonzero stock age, clamped to
[0, 100]; and every defined score lies in [0, 100]. -/
theorem performanceScore_amended (a : Acquisto) (today : Int) (h : a.costoTotale ≠ 0) :
    a.performanceScore today = performanceScoreAmended a today ∧
      ∀ s, a.performanceScore today = some s → 0 ≤ s ∧ s ≤ 100 := by
  constructor
  · simp only [Acquisto.performanceScore, performanceScoreAmended]
    by_cases hv : 0 < a.prodottiVenduti
    · simp only [hv, if_true]
      rcases hgs : a.giorniStock today with _ | gs <;> simp only [hgs] <;>
        split_ifs <;> norm_num
    · simp only [hv, if_false]
  · intro s hs
    unfold Acquisto.performanceScore at hs
    by_cases hv : 0 < a.prodottiVenduti
    · rw [if_pos hv] at hs
      obtain rfl := Option.some.inj hs
      exact ⟨le_max_left _ _, max_le (by norm_num) (min_le_left _ _)⟩
    · rw [if_neg hv] at hs
      exact Option.noConfusion hs

/-- Witness for `performanceScore_amended` at `acquistoC2` (total cost 100). -/
theorem performanceScore_amended_witness :
    acquistoC2.performanceScore 10 = performanceScoreAmended acquistoC2 10 :=
  (performanceScore_amended acquistoC2 10
    (by norm_num [Acquisto.costoTotale, acquistoC2])).1

/-- An entry of the critical-margin report (`margini_critici`, src/app/main.py
lines 299-308). -/
structure MargineCriticoEntry where
  acquisto : Acquisto
  prodottiTotali : Nat
  prodottiVendutiBusiness : Nat
  venditaCompleta : Bool
  investimento : ℚ
  ricavi : ℚ
  margine : ℚ
  marginePercentuale : ℚ
  deriving Repr, DecidableEq

/-- The per-purchase step of the critical-margin report (src/app/main.py lines
268-308): the purchase must have at least one item with at least one sale (the
query `Acquisto.prodotti.any(Prodotto.vendite.any())`), its business subset
must be non-empty, and its aggregate business margin percentage must be below
25. -/
def margineCriticoDi (a : Acquisto) : Option MargineCriticoEntry :=
  if a.prodotti.any fun p => !p.vendite.isEmpty then
    if (prodottiBusiness a).isEmpty then none
    else if margineBusinessPerc a < 25 then
      some { acquisto := a,
             prodottiTotali := (prodottiBusiness a).length,
             prodottiVendutiBusiness :=
               ((prodottiBusiness a).filter fun p => !p.vendite.isEmpty).length,
             venditaCompleta :=
               ((prodottiBusiness a).filter fun p => !p.vendite.isEmpty).length ==
                 (prodottiBusiness a).length,
             investimento := investimentoBusiness a,
             ricavi := ricaviBusiness a,
             margine := ricaviBusiness a - investimentoBusiness a,
             marginePercentuale := margineBusinessPerc a }
    else none
  else none

/-- Ascending comparison on the margin percentage of critical-margin entries
(the sort key of `margini_critici.sort(key=lambda x: x['margine_percentuale'])`,
src/app/main.py line 312). -/
def margineCriticoLe (x y : MargineCriticoEntry) : Prop :=
  x.marginePercentuale ≤ y.marginePercentuale

instance : DecidableRel margineCriticoLe := fun x y =>
  inferInstanceAs (Decidable (x.marginePercentuale ≤ y.marginePercentuale))

instance : IsTotal MargineCriticoEntry margineCriticoLe :=
  ⟨fun x y => le_total x.marginePercentuale y.marginePercentuale⟩

instance : IsTrans MargineCriticoEntry margineCriticoLe :=
  ⟨fun _ _ _ h1 h2 => le_trans h1 h2⟩

/-- The critical-margin report: qualifying purchases in database order, then a
stable sort ascending by margin percentage (src/app/main.py lines 264-312). -/
def marginiCritici (acquisti : List Acquisto) : List MargineCriticoEntry :=
  List.insertionSort margineCriticoLe (acquisti.filterMap margineCriticoDi)

/-- The selection predicate realized by `margineCriticoDi`. -/
def margineCriticoPred (a : Acquisto) : Bool :=
  (a.prodotti.any fun p => !p.vendite.isEmpty) && !(prodottiBusiness a).isEmpty &&
    decide (margineBusinessPerc a < 25)

theorem margineCriticoDi_acquisto (a : Acquisto) (e : MargineCriticoEntry)
    (h : margineCriticoDi a = some e) : e.acquisto = a := by
  unfold margineCriticoDi at h
  split_ifs at h
  obtain rfl := Option.some.inj h
  rfl

theorem margineCriticoDi_isSome (a : Acquisto) :
    (margineCriticoDi a).isSome = margineCriticoPred a := by
  unfold margineCriticoDi margineCriticoPred
  split_ifs with h1 h2 h3 <;> simp_all

/-- Mapping back the produced entries of a `filterMap` whose guard matches a
Boolean predicate yields the `filter` by that predicate. -/
theorem map_filterMap_eq_filter {α β : Type} (f : α → Option β) (g : β → α) (p : α → Bool)
    (h1 : ∀ a b, f a = some b → g b = a) (h2 : ∀ a, (f a).isSome = p a) :
    ∀ l : List α, (l.filterMap f).map g = l.filter p := by
  intro l
  induction l with
  | nil => rfl
  | cons a t ih =>
    cases hfa : f a with
    | none =>
      have hp : p a = false := by rw [← h2, hfa]; rfl
      simp [List.filterMap_cons, hfa, List.filter_cons, hp, ih]
    | some b =>
      have hp : p a = true := by rw [← h2, hfa]; rfl
      simp [List.filterMap_cons, hfa, List.filter_cons, hp, ih, h1 a b hfa]

/-- A service-use sale at price 100 on the reserved channel. -/
def venditaRip : Vendita :=
  { dataVendita := 5, canaleVendita := "RIPARAZIONI", prezzoVendita := 100, commissioni := 0,
    syncedFromInvoicex := false, invoicexId := some "FOTORIP_1" }

/-- A service-use item: its only sale is on the reserved channel. -/
def prodottoRip : Prodotto :=
  { seriale := some "SN-R", descrizione := "Obiettivo riparazioni", vendite := [venditaRip] }

/-- A purchase whose only sale is the service-use sale: one service-use item
and one unsold business item, total cost 100, arrived on day 0. -/
def acquistoC4 : Acquisto :=
  { idAcquistoUnivoco := "C4", costoAcquisto := 100, costiAccessori := 0,
    dataPagamento := none, dataConsegna := some 0, createdAt := 0,
    problemaTipo := none, problemaSegnalato := false,
    prodotti := [prodottoRip, prodottoB] }

/-- C4 counterexample: `acquistoC4` has no non-service-use sale at all (its
only sale is on channel "RIPARAZIONI"), yet the critical-margin report built
from it contains it: the report's entry condition only requires some sale on
any channel, and the business margin of the unsold business item is -100%. -/
theorem marginiCritici_counterexample :
    (marginiCritici [acquistoC4]).map (fun e => e.acquisto) = [acquistoC4] ∧
    (acquistoC4.prodotti.all fun p =>
      p.vendite.all fun v => v.canaleVendita == "RIPARAZIONI") = true := by
  have hrb : ricaviBusiness acquistoC4 = 0 := by
    simp [ricaviBusiness, prodottiBusiness, Prodotto.fotorip, Vendita.ricavoNetto,
      acquistoC4, prodottoRip, prodottoB, venditaRip]
  have hib : investimentoBusiness acquistoC4 = 50 := by
    simp [investimentoBusiness, prodottiBusiness, Prodotto.fotorip, Acquisto.costoTotale,
      acquistoC4, prodottoRip, prodottoB, venditaRip]
    norm_num
  have hmb : margineBusinessPerc acquistoC4 = -100 := by
    rw [margineBusinessPerc, hrb, hib]
    norm_num
  have hpred : margineCriticoPred acquistoC4 = true := by
    simp only [margineCriticoPred, hmb, Bool.and_eq_true, decide_eq_true_eq]
    refine ⟨⟨by decide, by decide⟩, by norm_num⟩
  have hsome : (margineCriticoDi acquistoC4).isSome = true := by
    rw [margineCriticoDi_isSome, hpred]
  obtain ⟨e, he⟩ := Option.isSome_iff_exists.mp hsome
  have hfm : [acquistoC4].filterMap margineCriticoDi = [e] := by
    simp [List.filterMap_cons, he]
  constructor
  · have : marginiCritici [acquistoC4] = [e] := by
      rw [marginiCritici, hfm]
      rfl
    rw [this]
    simp [margineCriticoDi_acquisto acquistoC4 e he]
  · decide

/-- C4 amended: the critical-margin report contains exactly those Purchases
that have at least one Sale on any channel (service-use included), a non-empty
business subset, and an aggregate business margin percentage below 25; entries
are sorted ascending by margin percentage. -/
theorem marginiCritici_amended (acquisti : List Acquisto) :
    List.Perm ((marginiCritici acquisti).map (fun e => e.acquisto))
      (acquisti.filter margineCriticoPred) ∧
    List.Sorted margineCriticoLe (marginiCritici acquisti) := by
  constructor
  · have hperm :=
      (List.perm_insertionSort margineCriticoLe (acquisti.filterMap margineCriticoDi)).map
        (fun e => e.acquisto)
    rw [map_filterMap_eq_filter margineCriticoDi (fun e => e.acquisto) margineCriticoPred
      margineCriticoDi_acquisto margineCriticoDi_isSome acquisti] at hperm
    exact hperm
  · exact List.sorted_insertionSort margineCriticoLe _

/-- An entry of the staleness report (`vendite_lente`, src/app/main.py lines
257-262). -/
structure VenditaLentaEntry where
  prodotto : Prodotto
  acquisto : Acquisto
  giorniStock : Int
  costoUnitario : ℚ
  deriving Repr, DecidableEq

/-- The staleness entries contributed by one purchase (src/app/main.py lines
246-262): its unsold items (no sale of any kind), provided the purchase has
arrived and has been in stock for more than 30 days; each is annotated with
the stock age and the unit cost `costo_totale / numero_prodotti`. -/
def venditeLenteDi (a : Acquisto) (today : Int) : List VenditaLentaEntry :=
  match a.dataConsegna with
  | none => []
  | some d =>
    (a.prodotti.filter fun p => p.vendite.isEmpty).filterMap fun p =>
      if today - d > 30 then
        some { prodotto := p, acquisto := a, giorniStock := today - d,
               costoUnitario := a.costoTotale / (a.prodotti.length : ℚ) }
      else none

/-- Descending comparison on stock age (the sort
`vendite_lente.sort(key=lambda x: x['giorni_stock'], reverse=True)`,
src/app/main.py line 311). -/
def giorniStockGe (x y : VenditaLentaEntry) : Prop :=
  y.giorniStock ≤ x.giorniStock

instance : DecidableRel giorniStockGe := fun x y =>
  inferInstanceAs (Decidable (y.giorniStock ≤ x.giorniStock))

instance : IsTotal VenditaLentaEntry giorniStockGe :=
  ⟨fun x y => le_total y.giorniStock x.giorniStock⟩

instance : IsTrans VenditaLentaEntry giorniStockGe :=
  ⟨fun _ _ _ h1 h2 => le_trans h2 h1⟩

/-- The staleness report over a set of purchases, sorted by descending stock
age (src/app/main.py lines 243-262 and 311). -/
def venditeLente (acquisti : List Acquisto) (today : Int) : List VenditaLentaEntry :=
  List.insertionSort giorniStockGe
    ((acquisti.map fun a => venditeLenteDi a today).flatten)

/-- C10: an Item with no Sales is never service-use (the classification needs
a sale on the reserved channel); every entry of the staleness report carries
an Item with no Sales, hence a non-service-use Item; and every unsold Item of
a Purchase belongs to the purchase's business subset. -/
theorem prodottoInvenduto_business :
    (∀ p : Prodotto, p.venduto = false → p.fotorip = false) ∧
    (∀ (acquisti : List Acquisto) (today : Int) (e : VenditaLentaEntry),
      e ∈ venditeLente acquisti today →
        e.prodotto.vendite = [] ∧ e.prodotto.fotorip = false) ∧
    (∀ (a : Acquisto), ∀ p ∈ a.prodotti, p.venduto = false → p ∈ prodottiBusiness a) := by
  have hbase : ∀ p : Prodotto, p.vendite.isEmpty = true → p.vendite = [] ∧ p.fotorip = false := by
    intro p hp
    have hnil : p.vendite = [] := List.isEmpty_iff.mp hp
    exact ⟨hnil, by simp [Prodotto.fotorip, hnil]⟩
  have hvenduto : ∀ p : Prodotto, p.venduto = false → p.vendite.isEmpty = true := by
    intro p hp
    simpa [Prodotto.venduto] using hp
  refine ⟨fun p hp => (hbase p (hvenduto p hp)).2, ?_, ?_⟩
  · intro acquisti today e he
    rw [venditeLente, (List.perm_insertionSort giorniStockGe _).mem_iff] at he
    obtain ⟨l, hl, hel⟩ := List.mem_flatten.mp he
    obtain ⟨a, _, rfl⟩ := List.mem_map.mp hl
    unfold venditeLenteDi at hel
    rcases hd : a.dataConsegna with _ | d <;> rw [hd] at hel
    · exact absurd hel (List.not_mem_nil e)
    · obtain ⟨p, hp, hpe⟩ := List.mem_filterMap.mp hel
      have hpi : p.vendite.isEmpty = true := (List.mem_filter.mp hp).2
      split_ifs at hpe
      obtain rfl := Option.some.inj hpe
      exact hbase p hpi
  · intro a p hp hv
    refine List.mem_filter.mpr ⟨hp, ?_⟩
    simp [(fun ppp hppp => (hbase ppp hppp).2) p (hvenduto p hv)]

/-- Witness for `prodottoInvenduto_business`: the unsold item `prodottoB` of
`acquistoP1` is in the business subset. -/
theorem prodottoInvenduto_business_witness : prodottoB ∈ prodottiBusiness acquistoP1 :=
  prodottoInvenduto_business.2.2 acquistoP1 prodottoB (by decide) (by decide)

/-- A performance classification issue (src/app/main.py lines 919-927); the
route renders each as a formatted string, modelled here as a tagged value. -/
inductive PerformanceIssue where
  | venditaParziale (venduti totali : Nat)
  | venditaLenta (giorni : Int)
  | margineBasso (perc : ℚ)
  deriving Repr, DecidableEq

/-- An entry of the performance dashboard (src/app/main.py lines 931-944). -/
structure PerformanceEntry where
  acquisto : Acquisto
  prodottiTotali : Nat
  prodottiVendutiBusiness : Nat
  venditaCompleta : Bool
  ricaviTotali : ℚ
  margine : ℚ
  marginePercentuale : ℚ
  giorniVendita : Option Int
  performanceIssues : List PerformanceIssue
  statusOk : Bool
  deriving Repr, DecidableEq

/-- The per-purchase step of the performance dashboard (src/app/main.py lines
862-944). The query keeps only arrived purchases that contain no item with a
service-use sale (lines 867-874); a purchase with an empty business subset is
then skipped (lines 883-884). `giorni_vendita` is the gap from arrival to the
latest non-service-use sale, computed only when fully sold; the issue list
gets "partial sale", else "slow sale" when `giorni_vendita` is truthy and over
30, plus "low margin" when the business margin percentage is below 25. -/
def performanceDataDi (a : Acquisto) : Option PerformanceEntry :=
  if a.dataConsegna.isSome && !(a.prodotti.any Prodotto.fotorip) then
    if (prodottiBusiness a).isEmpty then none
    else
      let pb := prodottiBusiness a
      let tot := pb.length
      let vend := (pb.filter fun p => !p.vendite.isEmpty).length
      let mp := margineBusinessPerc a
      let venditaCompleta : Bool := vend == tot
      let gv : Option Int :=
        if venditaCompleta && a.dataConsegna.isSome then
          let dateVendite := (pb.map fun p =>
            (p.vendite.filter fun v => v.canaleVendita != "RIPARAZIONI").map
              fun v => v.dataVendita).flatten
          match dateVendite.max?, a.dataConsegna with
          | some ult, some d => some (ult - d)
          | _, _ => none
        else none
      let issues : List PerformanceIssue :=
        (if !venditaCompleta then [PerformanceIssue.venditaParziale vend tot]
         else
           match gv with
           | some g => if g ≠ 0 ∧ g > 30 then [PerformanceIssue.venditaLenta g] else []
           | none => []) ++
        (if mp < 25 then [PerformanceIssue.margineBasso mp] else [])
      some { acquisto := a, prodottiTotali := tot, prodottiVendutiBusiness := vend,
             venditaCompleta := venditaCompleta, ricaviTotali := ricaviBusiness a,
             margine := ricaviBusiness a - investimentoBusiness a,
             marginePercentuale := mp, giorniVendita := gv,
             performanceIssues := issues, statusOk := issues.isEmpty }
  else none

/-- The sort key of the performance dashboard: problematic entries first, then
ascending margin percentage
(`sort(key=lambda x: (x["performance_status"] != "PROBLEMI", x["margine_percentuale"]))`,
src/app/main.py line 947). -/
def performanceLe (x y : PerformanceEntry) : Prop :=
  (x.statusOk = false ∧ y.statusOk = true) ∨
    (x.statusOk = y.statusOk ∧ x.marginePercentuale ≤ y.marginePercentuale)

instance : DecidableRel performanceLe := fun x y =>
  inferInstanceAs (Decidable ((x.statusOk = false ∧ y.statusOk = true) ∨
    (x.statusOk = y.statusOk ∧ x.marginePercentuale ≤ y.marginePercentuale)))

instance : IsTotal PerformanceEntry performanceLe := ⟨by
  intro x y
  unfold performanceLe
  rcases hx : x.statusOk <;> rcases hy : y.statusOk <;> simp [hx, hy] <;>
    exact le_total _ _⟩

instance : IsTrans PerformanceEntry performanceLe := ⟨by
  intro x y z hxy hyz
  unfold performanceLe at *
  rcases hxy with ⟨h1, h2⟩ | ⟨h1, h2⟩ <;> rcases hyz with ⟨h3, h4⟩ | ⟨h3, h4⟩
  · rw [h2] at h3
    exact Bool.noConfusion h3
  · exact Or.inl ⟨h1, h3 ▸ h2⟩
  · exact Or.inl ⟨h1.trans h3, h4⟩
  · exact Or.inr ⟨h1.trans h3, le_trans h2 h4⟩⟩

/-- The performance dashboard over a set of purchases
(src/app/main.py lines 862-947). -/
def performanceData (acquisti : List Acquisto) : List PerformanceEntry :=
  List.insertionSort performanceLe (acquisti.filterMap performanceDataDi)

/-- The selection predicate realized by `performanceDataDi`. -/
def performancePred (a : Acquisto) : Bool :=
  a.dataConsegna.isSome && !(a.prodotti.any Prodotto.fotorip) &&
    !(prodottiBusiness a).isEmpty

theorem performanceDataDi_acquisto (a : Acquisto) (e : PerformanceEntry)
    (h : performanceDataDi a = some e) : e.acquisto = a := by
  unfold performanceDataDi at h
  split_ifs at h
  obtain rfl := Option.some.inj h
  rfl

theorem performanceDataDi_isSome (a : Acquisto) :
    (performanceDataDi a).isSome = performancePred a := by
  unfold performanceDataDi performancePred
  split_ifs with h1 h2 <;> simp_all

/-- An arrived purchase mixing a service-use item with a sold business item. -/
def acquistoC3 : Acquisto :=
  { idAcquistoUnivoco := "C3", costoAcquisto := 100, costiAccessori := 0,
    dataPagamento := none, dataConsegna := some 0, createdAt := 0,
    problemaTipo := none, problemaSegnalato := false,
    prodotti := [prodottoRip, prodottoA] }

/-- C3 counterexample: `acquistoC3` has arrived and its business subset is
non-empty (it holds the business item `prodottoA` next to the service-use item
`prodottoRip`), yet the performance dashboard built from it is empty: the
query excludes every purchase containing an item with a service-use sale. -/
theorem performanceData_counterexample :
    performanceData [acquistoC3] = [] ∧ acquistoC3.dataConsegna.isSome = true ∧
      prodottiBusiness acquistoC3 ≠ [] := by
  refine ⟨?_, by decide, by decide⟩
  have hdi : performanceDataDi acquistoC3 = none := by
    unfold performanceDataDi
    rw [if_neg]
    decide
  rw [performanceData]
  simp [List.filterMap_cons, hdi]

/-- C3 amended: the performance classification produces an entry exactly for
each arrived Purchase that contains no service-use item and whose (then full)
item list is non-empty; a Purchase holding a service-use item alongside
business items is excluded entirely. -/
theorem performanceData_amended (acquisti : List Acquisto) :
    List.Perm ((performanceData acquisti).map (fun e => e.acquisto))
      (acquisti.filter performancePred) := by
  have hperm :=
    (List.perm_insertionSort performanceLe (acquisti.filterMap performanceDataDi)).map
      (fun e => e.acquisto)
  rw [map_filterMap_eq_filter performanceDataDi (fun e => e.acquisto) performancePred
    performanceDataDi_acquisto performanceDataDi_isSome acquisti] at hperm
  exact hperm

/-- Civil calendar date (year, month, day) of a day number; models Python's
`datetime.date` field access (Howard Hinnant's `civil_from_days`). -/
def civilFromDays (z0 : Int) : Int × Int × Int :=
  let z := z0 + 719468
  let era := (if 0 ≤ z then z else z - 146096) / 146097
  let doe := z - era * 146097
  let yoe := (doe - doe / 1460 + doe / 36524 - doe / 146096) / 365
  let y := yoe + era * 400
  let doy := doe - (365 * yoe + yoe / 4 - yoe / 100)
  let mp := (5 * doy + 2) / 153
  let d := doy - (153 * mp + 2) / 5 + 1
  let m := if mp < 10 then mp + 3 else mp - 9
  (if m ≤ 2 then y + 1 else y, m, d)

/-- Day number of a civil date (Hinnant's `days_from_civil`). -/
def daysFromCivil (y0 m d : Int) : Int :=
  let y := if m ≤ 2 then y0 - 1 else y0
  let era := (if 0 ≤ y then y else y - 399) / 400
  let yoe := y - era * 400
  let mp := (m + 9) % 12
  let doy := (153 * mp + 2) / 5 + d - 1
  let doe := yoe * 365 + yoe / 4 - yoe / 100 + doy
  era * 146097 + doe - 719468

/-- ISO weekday of a day number, 1 = Monday .. 7 = Sunday
(day 0 = 1970-01-01 was a Thursday). -/
def isoWeekday (rd : Int) : Int :=
  (rd + 3) % 7 + 1

/-- Helper of the ISO week count of a year. -/
def isoPVal (y : Int) : Int :=
  (y + y / 4 - y / 100 + y / 400) % 7

/-- Number of ISO weeks in a year (52 or 53). -/
def isoWeeksInYear (y : Int) : Int :=
  52 + (if isoPVal y = 4 ∨ isoPVal (y - 1) = 3 then 1 else 0)

/-- ISO year and week of a day number; models Python's `date.isocalendar()`
used for the weekly bucket key (src/app/main.py line 1005). -/
def isoYearWeek (rd : Int) : Int × Int :=
  let y := (civilFromDays rd).1
  let doy := rd - daysFromCivil y 1 1 + 1
  let w := (10 + doy - isoWeekday rd) / 7
  if w < 1 then (y - 1, isoWeeksInYear (y - 1))
  else if w > isoWeeksInYear y then (y + 1, 1)
  else (y, w)

/-- Two-digit zero padding, as in the `%02d` and `%m` formats. -/
def padTwo (n : Int) : String :=
  if 0 ≤ n ∧ n < 10 then "0" ++ toString n else toString n

/-- The bucket key of the period rollup (src/app/main.py lines 1002-1011):
ISO `"YYYY-Www"` when the period is `"settimana"`, else calendar `"YYYY-MM"`. -/
def periodoKey (periodo : String) (rd : Int) : String :=
  if periodo == "settimana" then
    let yw := isoYearWeek rd
    toString yw.1 ++ "-W" ++ padTwo yw.2
  else
    let ymd := civilFromDays rd
    toString ymd.1 ++ "-" ++ padTwo ymd.2.1

/-- The accumulator of one rollup bucket (src/app/main.py lines 1013-1036). -/
structure PeriodoStats where
  investimento : ℚ
  ricavi : ℚ
  margine : ℚ
  count : Nat
  deriving Repr, DecidableEq

/-- Add one purchase's business cost and revenue to its bucket, creating the
bucket on first use (the dict update of src/app/main.py lines 1013-1036,
insertion-ordered like a Python dict). -/
def aggiornaPeriodi : List (String × PeriodoStats) → String → ℚ → ℚ →
    List (String × PeriodoStats)
  | [], k, inv, ric =>
    [(k, { investimento := inv, ricavi := ric, margine := ric - inv, count := 1 })]
  | (k0, s) :: rest, k, inv, ric =>
    if k0 == k then
      (k0, { investimento := s.investimento + inv, ricavi := s.ricavi + ric,
             margine := s.margine + (ric - inv), count := s.count + 1 }) :: rest
    else (k0, s) :: aggiornaPeriodi rest k inv ric

/-- The rollup contribution of one purchase (src/app/main.py lines 976-1030):
`none` unless the purchase has arrived, contains no service-use item (the
query filter of lines 979-984) and has a non-empty business subset; otherwise
its arrival day, business cost and business revenue. -/
def contributoPeriodo (a : Acquisto) : Option (Int × ℚ × ℚ) :=
  match a.dataConsegna with
  | none => none
  | some d =>
    if a.prodotti.any Prodotto.fotorip then none
    else if (prodottiBusiness a).isEmpty then none
    else some (d, investimentoBusiness a, ricaviBusiness a)

/-- One step of the rollup accumulation loop (src/app/main.py lines 991-1036). -/
def statistichePasso (periodo : String) (per : List (String × PeriodoStats)) (a : Acquisto) :
    List (String × PeriodoStats) :=
  match contributoPeriodo a with
  | none => per
  | some (d, inv, ric) => aggiornaPeriodi per (periodoKey periodo d) inv ric

/-- The rollup buckets before sorting, in first-use order. -/
def statistichePeriodi (periodo : String) (acquisti : List Acquisto) :
    List (String × PeriodoStats) :=
  acquisti.foldl (statistichePasso periodo) []

/-- Reverse-chronological comparison of bucket keys
(`sorted(periodi.items(), reverse=True)`, src/app/main.py line 1040). -/
def chiavePeriodoGe (x y : String × PeriodoStats) : Prop :=
  y.1 ≤ x.1

instance : DecidableRel chiavePeriodoGe := fun x y =>
  inferInstanceAs (Decidable (y.1 ≤ x.1))

instance : IsTotal (String × PeriodoStats) chiavePeriodoGe :=
  ⟨fun x y => le_total y.1 x.1⟩

instance : IsTrans (String × PeriodoStats) chiavePeriodoGe :=
  ⟨fun _ _ _ h1 h2 => le_trans h2 h1⟩

/-- The period rollup: buckets sorted reverse-chronologically by key
(src/app/main.py lines 970-1051). -/
def statistichePeriodiche (periodo : String) (acquisti : List Acquisto) :
    List (String × PeriodoStats) :=
  List.insertionSort chiavePeriodoGe (statistichePeriodi periodo acquisti)

/-- Total investment across rollup buckets. -/
def totInvestimento (l : List (String × PeriodoStats)) : ℚ :=
  (l.map fun e => e.2.investimento).sum

/-- Total revenue across rollup buckets. -/
def totRicavi (l : List (String × PeriodoStats)) : ℚ :=
  (l.map fun e => e.2.ricavi).sum

/-- The investment a purchase contributes to the rollup (0 if skipped). -/
def contribInvestimento (a : Acquisto) : ℚ :=
  match contributoPeriodo a with
  | none => 0
  | some (_, inv, _) => inv

/-- The revenue a purchase contributes to the rollup (0 if skipped). -/
def contribRicavi (a : Acquisto) : ℚ :=
  match contributoPeriodo a with
  | none => 0
  | some (_, _, ric) => ric

theorem totInvestimento_aggiorna (per : List (String × PeriodoStats)) (k : String)
    (inv ric : ℚ) :
    totInvestimento (aggiornaPeriodi per k inv ric) = totInvestimento per + inv := by
  induction per with
  | nil => simp [aggiornaPeriodi, totInvestimento]
  | cons e rest ih =>
    obtain ⟨k0, s⟩ := e
    simp only [aggiornaPeriodi]
    split_ifs with hk <;> simp [totInvestimento] at ih ⊢ <;> try rw [ih]
    all_goals ring

theorem totRicavi_aggiorna (per : List (String × PeriodoStats)) (k : String)
    (inv ric : ℚ) :
    totRicavi (aggiornaPeriodi per k inv ric) = totRicavi per + ric := by
  induction per with
  | nil => simp [aggiornaPeriodi, totRicavi]
  | cons e rest ih =>
    obtain ⟨k0, s⟩ := e
    simp only [aggiornaPeriodi]
    split_ifs with hk <;> simp [totRicavi] at ih ⊢ <;> try rw [ih]
    all_goals ring

theorem totInvestimento_passo (periodo : String) (per : List (String × PeriodoStats))
    (a : Acquisto) :
    totInvestimento (statistichePasso periodo per a) =
      totInvestimento per + contribInvestimento a := by
  unfold statistichePasso contribInvestimento
  rcases hc : contributoPeriodo a with _ | ⟨d, inv, ric⟩
  · simp
  · simp [totInvestimento_aggiorna]

theorem totRicavi_passo (periodo : String) (per : List (String × PeriodoStats))
    (a : Acquisto) :
    totRicavi (statistichePasso periodo per a) = totRicavi per + contribRicavi a := by
  unfold statistichePasso contribRicavi
  rcases hc : contributoPeriodo a with _ | ⟨d, inv, ric⟩
  · simp
  · simp [totRicavi_aggiorna]

theorem totInvestimento_fold (periodo : String) (l : List Acquisto) :
    ∀ per, totInvestimento (l.foldl (statistichePasso periodo) per) =
      totInvestimento per + (l.map contribInvestimento).sum := by
  induction l with
  | nil => intro per; simp
  | cons a t ih =>
    intro per
    rw [List.foldl_cons, ih, totInvestimento_passo]
    simp
    ring

theorem totRicavi_fold (periodo : String) (l : List Acquisto) :
    ∀ per, totRicavi (l.foldl (statistichePasso periodo) per) =
      totRicavi per + (l.map contribRicavi).sum := by
  induction l with
  | nil => intro per; simp
  | cons a t ih =>
    intro per
    rw [List.foldl_cons, ih, totRicavi_passo]
    simp
    ring

/-- C9: for any fixed set of Purchases, total investment and total revenue
summed across all weekly rollup buckets equal the same sums across all
monthly rollup buckets: each qualifying Purchase lands in exactly one bucket
under either granularity, contributing the same business cost and revenue. -/
theorem statistiche_conservazione (acquisti : List Acquisto) :
    totInvestimento (statistichePeriodiche "settimana" acquisti) =
      totInvestimento (statistichePeriodiche "mese" acquisti) ∧
    totRicavi (statistichePeriodiche "settimana" acquisti) =
      totRicavi (statistichePeriodiche "mese" acquisti) := by
  have hi : ∀ p, totInvestimento (statistichePeriodiche p acquisti) =
      (acquisti.map contribInvestimento).sum := by
    intro p
    have hperm := (List.perm_insertionSort chiavePeriodoGe
      (statistichePeriodi p acquisti)).map (fun e => e.2.investimento)
    rw [statistichePeriodiche, totInvestimento, hperm.sum_eq, ← totInvestimento,
      statistichePeriodi, totInvestimento_fold]
    simp [totInvestimento]
  have hr : ∀ p, totRicavi (statistichePeriodiche p acquisti) =
      (acquisti.map contribRicavi).sum := by
    intro p
    have hperm := (List.perm_insertionSort chiavePeriodoGe
      (statistichePeriodi p acquisti)).map (fun e => e.2.ricavi)
    rw [statistichePeriodiche, totRicavi, hperm.sum_eq, ← totRicavi,
      statistichePeriodi, totRicavi_fold]
    simp [totRicavi]
  exact ⟨(hi "settimana").trans (hi "mese").symm, (hr "settimana").trans (hr "mese").symm⟩

end Gestionale

namespace Gestionale

/-- One product record of a purchase-import payload
(src/app/main.py lines 1209-1213, src/app/routes/api_routes.py lines 87-91). -/
structure ProdottoInfo where
  seriale : Option String
  descrizione : String
  note : Option String
  isFotorip : Bool
  deriving Repr, DecidableEq

/-- One purchase record of a purchase-import payload
(src/app/main.py lines 1158-1208). -/
structure AcquistoInfo where
  idAcquistoUnivoco : String
  costoAcquisto : ℚ
  costiAccessori : ℚ
  dataPagamento : Option Int
  dataConsegna : Option Int
  prodotti : List ProdottoInfo
  deriving Repr, DecidableEq

/-- Python truthiness of an optional serial string. -/
def serialeTruthy : Option String → Bool
  | none => false
  | some s => s != ""

/-- Import of one new purchase payload (`ricevi_acquisti_da_script`,
src/app/main.py lines 1190-1255 and src/app/routes/api_routes.py lines
69-132). Products with an empty description are skipped; a non-fotorip
product whose truthy serial is already in the database is skipped with an
error; a fotorip product immediately receives a synthetic sale on channel
"RIPARAZIONI" with commission 0, dated at the delivery date when present, and
priced at the WHOLE batch cost `costo_acquisto + costi_accessori`
(main.py line 1239, api_routes.py line 116). Database product ids (used only
inside the synthetic sale's `invoicex_id`) are modelled as 1-based creation
positions. -/
def importaAcquisto (existingSerials : List String) (today : Int) (info : AcquistoInfo) :
    Acquisto :=
  let costoTotaleAcquisto := info.costoAcquisto + info.costiAccessori
  let passo := fun (acc : List Prodotto × Nat) (pinfo : ProdottoInfo) =>
    if pinfo.descrizione == "" then acc
    else if serialeTruthy pinfo.seriale && !pinfo.isFotorip &&
        existingSerials.contains (pinfo.seriale.getD "") then acc
    else
      let vendite :=
        if pinfo.isFotorip then
          [{ dataVendita := info.dataConsegna.getD today,
             canaleVendita := "RIPARAZIONI",
             prezzoVendita := costoTotaleAcquisto,
             commissioni := 0,
             syncedFromInvoicex := false,
             invoicexId := some ("FOTORIP_" ++ toString acc.2) : Vendita }]
        else []
      (acc.1 ++ [{ seriale := pinfo.seriale, descrizione := pinfo.descrizione,
                   vendite := vendite }], acc.2 + 1)
  let res := info.prodotti.foldl passo ([], 1)
  { idAcquistoUnivoco := info.idAcquistoUnivoco,
    costoAcquisto := info.costoAcquisto,
    costiAccessori := info.costiAccessori,
    dataPagamento := info.dataPagamento,
    dataConsegna := info.dataConsegna,
    createdAt := info.dataConsegna.getD today,
    problemaTipo := none,
    problemaSegnalato := false,
    prodotti := res.1 }

/-- An import payload with total cost 100 and two products, the first flagged
service-use. -/
def infoC1 : AcquistoInfo :=
  { idAcquistoUnivoco := "EXC-1", costoAcquisto := 100, costiAccessori := 0,
    dataPagamento := none, dataConsegna := some 0,
    prodotti :=
      [{ seriale := some "SN-F1", descrizione := "Obiettivo fotorip", note := none,
         isFotorip := true },
       { seriale := some "SN-G1", descrizione := "Fotocamera", note := none,
         isFotorip := false }] }

/-- C1: importing `infoC1` creates a two-item batch whose service-use item
gets a synthetic sale on channel "RIPARAZIONI" with commission 0 but priced
at 100 - the whole batch cost - while the item's allocated unit cost is
100 / 2 = 50, so the item's margin is +50, not the zero margin the claim (and
the code's own "margine neutro" comment) requires. -/
theorem importaAcquisto_fotorip_margine :
    ((importaAcquisto [] 0 infoC1).prodotti.filter Prodotto.fotorip).map
        (fun p => p.vendite.map fun v => (v.canaleVendita, v.commissioni, v.prezzoVendita)) =
      [[("RIPARAZIONI", 0, 100)]] ∧
    costoUnitarioProdotto (some (importaAcquisto [] 0 infoC1)) = 50 ∧
    ((importaAcquisto [] 0 infoC1).prodotti.filter Prodotto.fotorip).map
        (margineProdotto (importaAcquisto [] 0 infoC1)) = [50] := by
  have ha : (importaAcquisto [] 0 infoC1).prodotti =
      [{ seriale := some "SN-F1", descrizione := "Obiettivo fotorip",
         vendite := [{ dataVendita := 0, canaleVendita := "RIPARAZIONI",
                       prezzoVendita := 100, commissioni := 0,
                       syncedFromInvoicex := false, invoicexId := some "FOTORIP_1" }] },
       { seriale := some "SN-G1", descrizione := "Fotocamera", vendite := [] }] := by
    simp [importaAcquisto, infoC1, serialeTruthy]
    decide
  have hct : (importaAcquisto [] 0 infoC1).costoTotale = 100 := by
    simp [Acquisto.costoTotale, importaAcquisto, infoC1]
  refine ⟨?_, ?_, ?_⟩
  · rw [ha]
    simp [Prodotto.fotorip]
  · rw [costoUnitarioProdotto, ha, hct]
    norm_num
  · have hcu : costoUnitarioProdotto (some (importaAcquisto [] 0 infoC1)) = 50 := by
      rw [costoUnitarioProdotto, ha, hct]
      norm_num
    rw [ha]
    simp [Prodotto.fotorip, margineProdotto, Prodotto.ricavoVendita, Vendita.ricavoNetto, hcu]
    norm_num

end Gestionale

namespace Gestionale

/-- A stored `prodotti` row as seen by the import endpoints: its database id
and serial. -/
structure ProdottoRec where
  id : Nat
  seriale : Option String
  deriving Repr, DecidableEq

/-- A stored `vendite` row as seen by the sales-import endpoint. -/
structure VenditaRec where
  prodottoId : Nat
  dataVendita : Int
  canaleVendita : String
  prezzoVendita : ℚ
  commissioni : ℚ
  invoicexId : String
  deriving Repr, DecidableEq

/-- One record of a sales-import payload (`ricevi_vendite_da_script`); its
`id` is the external reference, stored as `invoicex_id`. -/
structure VenditaPayload where
  id : String
  seriale : Option String
  dataVendita : Int
  canaleVendita : String
  prezzoVendita : ℚ
  commissioni : ℚ
  deriving Repr, DecidableEq

/-- The counters of the sales import, plus the rows added so far
(src/app/main.py lines 1283-1287). -/
structure SyncVenditeStato where
  pending : List VenditaRec
  inserite : Nat
  aggiornate : Nat
  errori : Nat
  deriving Repr, DecidableEq

/-- One iteration of the sales-import loop (src/app/main.py lines 1289-1326,
src/app/routes/api_routes.py lines 166-203): missing or empty serial is an
error; an unknown serial is an error; a payload whose external id already
exists is counted as updated and skipped; otherwise a row is inserted. The
existence check queries the database, and rows added earlier in the same
request are pending and invisible to it: the session is built with
`autoflush=False` (src/app/database.py line 15) and this loop never flushes,
so the check runs against `committed` only. -/
def processaVendita (committed : List VenditaRec) (prodotti : List ProdottoRec)
    (st : SyncVenditeStato) (v : VenditaPayload) : SyncVenditeStato :=
  match v.seriale with
  | none => { st with errori := st.errori + 1 }
  | some s =>
    if s == "" then { st with errori := st.errori + 1 }
    else
      match prodotti.find? (fun p => p.seriale == some s) with
      | none => { st with errori := st.errori + 1 }
      | some p =>
        if committed.any (fun w => w.invoicexId == v.id) then
          { st with aggiornate := st.aggiornate + 1 }
        else
          { st with
            pending := st.pending ++
              [{ prodottoId := p.id, dataVendita := v.dataVendita,
                 canaleVendita := v.canaleVendita, prezzoVendita := v.prezzoVendita,
                 commissioni := v.commissioni, invoicexId := v.id }],
            inserite := st.inserite + 1 }

/-- The whole sales-import request (src/app/main.py lines 1272-1336): process
the batch, then commit, appending the pending rows to the stored ones. -/
def riceviVendite (committed : List VenditaRec) (prodotti : List ProdottoRec)
    (batch : List VenditaPayload) : List VenditaRec × SyncVenditeStato :=
  let st := batch.foldl (processaVendita committed prodotti) ⟨[], 0, 0, 0⟩
  (committed ++ st.pending, st)

/-- A stored product with serial "SN1". -/
def prodottoSync : ProdottoRec := { id := 1, seriale := some "SN1" }

/-- A sales payload with external id "V1" against serial "SN1". -/
def payloadV1 : VenditaPayload :=
  { id := "V1", seriale := some "SN1", dataVendita := 0, canaleVendita := "ebay",
    prezzoVendita := 10, commissioni := 0 }

/-- C7: a single import request whose batch carries the same external id "V1"
twice inserts TWO sales with that id on an empty store - the duplicate check
only sees committed rows, so the second record does not see the first,
pending one - while an id already stored before the request is correctly
counted as updated with no insert. -/
theorem riceviVendite_duplicato :
    ((riceviVendite [] [prodottoSync] [payloadV1, payloadV1]).1.filter
        (fun w => w.invoicexId == "V1")).length = 2 ∧
    (riceviVendite [] [prodottoSync] [payloadV1, payloadV1]).2.inserite = 2 ∧
    (riceviVendite [] [prodottoSync] [payloadV1, payloadV1]).2.aggiornate = 0 ∧
    (riceviVendite [⟨1, 0, "ebay", 10, 0, "V1"⟩] [prodottoSync] [payloadV1]).2.aggiornate = 1 ∧
    (riceviVendite [⟨1, 0, "ebay", 10, 0, "V1"⟩] [prodottoSync] [payloadV1]).2.inserite = 0 := by
  refine ⟨?_, by decide, by decide, by decide, by decide⟩
  decide

/-- The duplicate-serial guard of the product-creation loop of `crea_acquisto`
(src/app/main.py lines 593-613), over already-stripped form values: an item
with empty description is skipped; a non-empty submitted serial equal to a
stored serial aborts the whole request with HTTP 400 naming the serial; an
empty serial is stored as NULL with no uniqueness check. "N/A" and "???" are
ordinary values here. -/
def creaProdottiAcquisto (existingSerials : List String) :
    List (String × String) → Except String (List (Option String × String))
  | [] => Except.ok []
  | (seriale, descrizione) :: rest =>
    if descrizione == "" then creaProdottiAcquisto existingSerials rest
    else if seriale != "" && existingSerials.contains seriale then
      Except.error ("Seriale " ++ seriale ++ " già esistente")
    else
      match creaProdottiAcquisto existingSerials rest with
      | Except.ok ps =>
        Except.ok ((if seriale == "" then none else some seriale, descrizione) :: ps)
      | Except.error e => Except.error e

/-- Serial back-fill (`salva_seriali`, src/app/main.py lines 632-680): each
update names a product id and a new serial; missing ids or empty serials are
skipped; any non-empty serial already stored aborts the request; a found
product receives the serial only if it has none yet. The duplicate check sees
only committed rows (`committed`), the session having autoflush disabled. -/
def salvaSeriali (committed : List ProdottoRec) :
    List ProdottoRec → List (Option Nat × String) → Except String (List ProdottoRec × Nat)
  | db, [] => Except.ok (db, 0)
  | db, (idp, s) :: rest =>
    match idp with
    | none => salvaSeriali committed db rest
    | some pid =>
      if s == "" then salvaSeriali committed db rest
      else if committed.any (fun p => p.seriale == some s) then
        Except.error ("Seriale " ++ s ++ " già esistente")
      else
        let db2 := db.map fun p =>
          if p.id == pid && p.seriale == none then { p with seriale := some s } else p
        let updated := db.any fun p => p.id == pid && p.seriale == none
        match salvaSeriali committed db2 rest with
        | Except.ok (dbf, n) => Except.ok (dbf, (if updated then 1 else 0) + n)
        | Except.error e => Except.error e

/-- C8 counterexample: with an Item holding serial "N/A" already stored,
submitting a new Item with serial "N/A" is rejected with "Seriale N/A già
esistente", although "N/A" is a placeholder, not a real serial: the
uniqueness guard exempts only the empty value. -/
theorem creaProdotti_placeholder_rifiutato :
    creaProdottiAcquisto ["N/A"] [("N/A", "Fotocamera")] =
      Except.error "Seriale N/A già esistente" ∧
    serialeReale (some "N/A") = false := by
  exact ⟨rfl, by decide⟩

/-- C8 amended: Item creation and serial back-fill reject a duplicate serial
exactly when the supplied (stripped) value is non-empty and equals a stored
Item's serial; only the empty value is treated as "no serial" and exempt, so
the placeholders "N/A" and "???" are subject to the uniqueness check like
real serials. -/
theorem serialeDuplicato_amended (ex : List String) (db : List ProdottoRec)
    (s d : String) (pid : Nat) (hd : d ≠ "") :
    ((∃ e, creaProdottiAcquisto ex [(s, d)] = Except.error e) ↔ s ≠ "" ∧ s ∈ ex) ∧
    ((∃ e, salvaSeriali db db [(some pid, s)] = Except.error e) ↔
      s ≠ "" ∧ ∃ p ∈ db, p.seriale = some s) := by
  constructor
  · by_cases hs : s = ""
    · simp [creaProdottiAcquisto, hd, hs]
    · by_cases hc : s ∈ ex <;>
        simp [creaProdottiAcquisto, hd, hs, hc]
  · by_cases hs : s = ""
    · simp [salvaSeriali, hs]
    · by_cases hc : ∃ p ∈ db, p.seriale = some s
      · obtain ⟨p, hp, hps⟩ := hc
        have hany : (db.any fun p => p.seriale == some s) = true :=
          List.any_eq_true.mpr ⟨p, hp, by simp [hps]⟩
        simp [salvaSeriali, hs, hany]
        exact ⟨p, hp, hps⟩
      · have hany : (db.any fun p => p.seriale == some s) = false := by
          rw [List.any_eq_false]
          intro p hp
          simp only [beq_iff_eq]
          exact fun hps => hc ⟨p, hp, hps⟩
        have hs2 : (s == "") = false := by simp [hs]
        simp [salvaSeriali, hs2, hany, hc]

end Gestionale

namespace Gestionale

/-- Witness for `serialeDuplicato_amended`: submitting the placeholder serial
"N/A" while an Item with serial "N/A" exists is rejected. -/
theorem serialeDuplicato_amended_witness :
    ("Fotocamera" ≠ "") ∧
    (∃ e, creaProdottiAcquisto ["N/A"] [("N/A", "Fotocamera")] = Except.error e) :=
  ⟨by decide, ((serialeDuplicato_amended ["N/A"] [] "N/A" "Fotocamera" 0 (by decide)).1).mpr
    ⟨by decide, by decide⟩⟩

end Gestionale
